import Mathlib

/-!
Shallow embedding of the Activity Log Query & Mutation API
(chrome/browser/extensions/api/activity_log_private/activity_log_private_api.cc)
and proofs about its filter translation, result marshalling, mutation
forwarding and lifecycle behaviour.
-/

set_option maxRecDepth 4000

namespace extensions

/-- `Action::ActionType` (from the activity-log Action class; the enumerators
are named in the source switch at activity_log_private_api.cc:108-131). -/
inductive ActionType where
  | ACTION_API_CALL
  | ACTION_API_EVENT
  | ACTION_CONTENT_SCRIPT
  | ACTION_DOM_ACCESS
  | ACTION_DOM_EVENT
  | ACTION_WEB_REQUEST
  | ACTION_ANY
deriving DecidableEq, Repr

/-- `Filter::ActivityType` enumerator `ACTIVITY_TYPE_API_CALL`. The numeric
values come from the generated API header (not in src); the code only compares
the field against the enumerators, so only distinctness matters. A C++ enum
variable can hold any integer value, hence the `Int` representation. -/
def ACTIVITY_TYPE_API_CALL : Int := 1

/-- `Filter::ActivityType` enumerator `ACTIVITY_TYPE_API_EVENT`. -/
def ACTIVITY_TYPE_API_EVENT : Int := 2

/-- `Filter::ActivityType` enumerator `ACTIVITY_TYPE_CONTENT_SCRIPT`. -/
def ACTIVITY_TYPE_CONTENT_SCRIPT : Int := 3

/-- `Filter::ActivityType` enumerator `ACTIVITY_TYPE_DOM_ACCESS`. -/
def ACTIVITY_TYPE_DOM_ACCESS : Int := 4

/-- `Filter::ActivityType` enumerator `ACTIVITY_TYPE_DOM_EVENT`. -/
def ACTIVITY_TYPE_DOM_EVENT : Int := 5

/-- `Filter::ActivityType` enumerator `ACTIVITY_TYPE_WEB_REQUEST`. -/
def ACTIVITY_TYPE_WEB_REQUEST : Int := 6

/-- `Filter::ActivityType` enumerator `ACTIVITY_TYPE_ANY`. -/
def ACTIVITY_TYPE_ANY : Int := 7

/-- `api::activity_log_private::Filter`: the query filter.  Optional fields are
`scoped_ptr`s in the generated code, embedded as `Option`. -/
structure Filter where
  activity_type : Int
  extension_id : Option String
  api_call : Option String
  page_url : Option String
  arg_url : Option String
  days_ago : Option Int
deriving DecidableEq, Repr

/-- An activity-log `Action` record. Opaque to this layer (spec section 3): a
stable numeric identifier, an action kind, an extension identifier, an API-call
name, a page URL, an argument URL, a timestamp and an argument payload. -/
structure Action where
  action_id : Int
  action_type : ActionType
  extension_id : String
  api_name : String
  page_url : String
  arg_url : String
  time : Int
  args : List String
deriving DecidableEq, Repr

/-- `api::activity_log_private::ExtensionActivity`: the wire projection of an
Action (same logical fields, spec section 3). -/
structure ExtensionActivity where
  activity_id : Int
  activity_type : ActionType
  extension_id : String
  api_call : String
  page_url : String
  arg_url : String
  time : Int
  args : List String
deriving DecidableEq, Repr

/-- Modelled from the spec: `Action::ConvertToExtensionActivity` (defined in
the activity-log Action class, not in src).  Per spec section 3 the
ExtensionActivity is the one-to-one projection of the Action carrying the same
logical fields. -/
def Action.convertToExtensionActivity (a : Action) : ExtensionActivity :=
  { activity_id := a.action_id
    activity_type := a.action_type
    extension_id := a.extension_id
    api_call := a.api_name
    page_url := a.page_url
    arg_url := a.arg_url
    time := a.time
    args := a.args }

/-- Modelled from the spec: `GURL` (the url library is not in src).  Only the
structure needed by the claims is modelled: a parsed URL carries its text and a
validity bit; the default-constructed (structurally-empty) URL is `⟨"", false⟩`. -/
structure GURL where
  spec : String
  is_valid : Bool
deriving DecidableEq, Repr

/-- The structurally-empty URL (default-constructed `GURL()`). -/
def GURL.empty : GURL := { spec := "", is_valid := false }

/-- Splits a character list at the first occurrence of the literal `://`,
returning the scheme part and the remainder. -/
def splitSchemeSep : List Char → Option (List Char × List Char)
  | [] => none
  | ':' :: '/' :: '/' :: rest => some ([], rest)
  | c :: rest =>
      match splitSchemeSep rest with
      | some p => some (c :: p.1, p.2)
      | none => none

/-- Modelled from the spec: GURL well-formedness.  `DeleteUrls` only needs
"empty or malformed strings yield a structurally-empty URL"; a minimal
syntactic criterion is used: a nonempty alphabetic scheme, the separator
`://`, and a nonempty remainder. -/
def isWellFormedUrl (s : String) : Bool :=
  match splitSchemeSep s.data with
  | some (scheme, rest) => !scheme.isEmpty && !rest.isEmpty && scheme.all Char.isAlpha
  | none => false

/-- Modelled from the spec: the `GURL(std::string)` constructor.  A well-formed
string yields a valid URL holding that text; an empty or malformed string
yields the structurally-empty URL. -/
def GURL.ofString (s : String) : GURL :=
  if isWellFormedUrl s then { spec := s, is_valid := true } else GURL.empty

/-- One digit character to its value. -/
def digitVal (c : Char) : Option Nat :=
  if c.isDigit then some (c.toNat - 48) else none

/-- Accumulating base-10 parse of a digit list; fails on any non-digit. -/
def parseDigitsAux : List Char → Nat → Option Nat
  | [], acc => some acc
  | c :: cs, acc =>
      match digitVal c with
      | some d => parseDigitsAux cs (acc * 10 + d)
      | none => none

/-- Base-10 parse of a nonempty digit list. -/
def parseDigits (cs : List Char) : Option Nat :=
  if cs.isEmpty then none else parseDigitsAux cs 0

/-- Smallest signed 64-bit integer. -/
def int64Min : Int := -(2 ^ 63)

/-- Largest signed 64-bit integer. -/
def int64Max : Int := 2 ^ 63 - 1

/-- Modelled from the spec: `base::StringToInt64` (base/strings, not in src).
Per spec section 4.4 each identifier is "parsed as a signed 64-bit integer"
and entries that do not parse are discarded: an optional leading minus sign,
at least one decimal digit, nothing else, and the value must fit in 64 bits. -/
def stringToInt64 (s : String) : Option Int :=
  match s.data with
  | '-' :: rest =>
      (parseDigits rest).bind fun n =>
        if (-(n : Int)) < int64Min then none else some (-(n : Int))
  | cs =>
      (parseDigits cs).bind fun n =>
        if (n : Int) > int64Max then none else some n

/-- The six-argument query issued to `ActivityLog::GetFilteredActions`
(activity_log_private_api.cc:147-153). -/
structure StoreQuery where
  extension_id : String
  action_type : ActionType
  api_call : String
  page_url : String
  arg_url : String
  days_ago : Int
deriving DecidableEq, Repr

/-- One call into the Action Store, as issued by the endpoint `RunImpl`s. -/
inductive StoreCall where
  | getFilteredActions (q : StoreQuery)
  | removeActions (action_ids : List Int)
  | removeURLs (gurls : List GURL)
  | deleteDatabase
deriving DecidableEq, Repr

/-- The switch on `filter->activity_type`
(activity_log_private_api.cc:108-131): the six named enumerators map to the
corresponding `Action::ActionType`; `ACTIVITY_TYPE_ANY` and the `default`
label both yield `ACTION_ANY`.  (The initializer `ACTION_API_CALL` of the
local is dead: every switch path assigns.) -/
def filterKindOf (activity_type : Int) : ActionType :=
  if activity_type = ACTIVITY_TYPE_API_CALL then ActionType.ACTION_API_CALL
  else if activity_type = ACTIVITY_TYPE_API_EVENT then ActionType.ACTION_API_EVENT
  else if activity_type = ACTIVITY_TYPE_CONTENT_SCRIPT then ActionType.ACTION_CONTENT_SCRIPT
  else if activity_type = ACTIVITY_TYPE_DOM_ACCESS then ActionType.ACTION_DOM_ACCESS
  else if activity_type = ACTIVITY_TYPE_DOM_EVENT then ActionType.ACTION_DOM_EVENT
  else if activity_type = ACTIVITY_TYPE_WEB_REQUEST then ActionType.ACTION_WEB_REQUEST
  else ActionType.ACTION_ANY

/-- The spec's translation table (spec section 3 / section 4.3): each ActionKind
maps to itself. -/
def specActionKindTable : List (Int × ActionType) :=
  [(ACTIVITY_TYPE_API_CALL, ActionType.ACTION_API_CALL),
   (ACTIVITY_TYPE_API_EVENT, ActionType.ACTION_API_EVENT),
   (ACTIVITY_TYPE_CONTENT_SCRIPT, ActionType.ACTION_CONTENT_SCRIPT),
   (ACTIVITY_TYPE_DOM_ACCESS, ActionType.ACTION_DOM_ACCESS),
   (ACTIVITY_TYPE_DOM_EVENT, ActionType.ACTION_DOM_EVENT),
   (ACTIVITY_TYPE_WEB_REQUEST, ActionType.ACTION_WEB_REQUEST)]

/-- Table walk for the spec-side translation: first matching entry wins,
values not in the table map to `ACTION_ANY` ("unknown values map to `Any`",
spec section 4.3 step 1). -/
def tableKind : List (Int × ActionType) → Int → ActionType
  | [], _ => ActionType.ACTION_ANY
  | (k, t) :: rest, v => if v = k then t else tableKind rest v

/-- Spec-side activity-type translation (spec section 4.3 step 1), to be
compared with the source's `filterKindOf`. -/
def specActionKind (v : Int) : ActionType :=
  tableKind specActionKindTable v

/-- The argument extraction of
`ActivityLogPrivateGetExtensionActivitiesFunction::RunImpl`
(activity_log_private_api.cc:106-142): the switch on `activity_type`, a
ternary on each optional string (absent ↦ empty string), and `days_ago`
initialized to `-1` and overwritten only when present. -/
def getExtensionActivitiesQuery (filter : Filter) : StoreQuery :=
  { extension_id := match filter.extension_id with
      | some s => s
      | none => ""
    action_type := filterKindOf filter.activity_type
    api_call := match filter.api_call with
      | some s => s
      | none => ""
    page_url := match filter.page_url with
      | some s => s
      | none => ""
    arg_url := match filter.arg_url with
      | some s => s
      | none => ""
    days_ago := match filter.days_ago with
      | some d => d
      | none => -1 }

namespace ActivityLogPrivateGetExtensionActivitiesFunction

/-- `ActivityLogPrivateGetExtensionActivitiesFunction::RunImpl`
(activity_log_private_api.cc:100-159): translate the filter and issue the one
`GetFilteredActions` query. -/
def RunImpl (filter : Filter) : List StoreCall :=
  [StoreCall.getFilteredActions (getExtensionActivitiesQuery filter)]

/-- `ActivityLogPrivateGetExtensionActivitiesFunction::OnLookupCompleted`
(activity_log_private_api.cc:161-179): the iterator loop pushing the
conversion of each returned Action, in order, into the result array. -/
def OnLookupCompleted (activities : List Action) : List ExtensionActivity :=
  activities.foldl (fun result_arr a => result_arr ++ [a.convertToExtensionActivity]) []

end ActivityLogPrivateGetExtensionActivitiesFunction

namespace ActivityLogPrivateDeleteActivitiesFunction

/-- One iteration of the loop of
`ActivityLogPrivateDeleteActivitiesFunction::RunImpl`
(activity_log_private_api.cc:189-192): if `StringToInt64` accepts the entry,
push the parsed value. -/
def pushParsed (action_ids : List Int) (s : String) : List Int :=
  match stringToInt64 s with
  | some value => action_ids ++ [value]
  | none => action_ids

/-- The loop of `ActivityLogPrivateDeleteActivitiesFunction::RunImpl`
(activity_log_private_api.cc:187-192): push each entry that `StringToInt64`
accepts, in input order. -/
def actionIds (activity_ids : List String) : List Int :=
  activity_ids.foldl pushParsed []

/-- `ActivityLogPrivateDeleteActivitiesFunction::RunImpl`
(activity_log_private_api.cc:181-198): parse the identifier list and issue the
one `RemoveActions` call (unconditionally, even for an empty list). -/
def RunImpl (activity_ids : List String) : List StoreCall :=
  [StoreCall.removeActions (actionIds activity_ids)]

end ActivityLogPrivateDeleteActivitiesFunction

namespace ActivityLogPrivateDeleteUrlsFunction

/-- The loop of `ActivityLogPrivateDeleteUrlsFunction::RunImpl`
(activity_log_private_api.cc:215-219): construct a `GURL` from every input
string, in order, dropping nothing. -/
def gurlsOf (urls : List String) : List GURL :=
  urls.foldl (fun gurls u => gurls ++ [GURL.ofString u]) []

/-- `ActivityLogPrivateDeleteUrlsFunction::RunImpl`
(activity_log_private_api.cc:207-225): build the GURL list and issue the one
`RemoveURLs` call. -/
def RunImpl (urls : List String) : List StoreCall :=
  [StoreCall.removeURLs (gurlsOf urls)]

end ActivityLogPrivateDeleteUrlsFunction

/-- Modelled from the spec: the event name constant
`activity_log_private::OnExtensionActivity::kEventName` (generated API header,
not in src).  Spec section 6 fixes it bit-exact: `"onExtensionActivity"`. -/
def kEventName : String := "onExtensionActivity"

/-- An event handed to `EventRouter::BroadcastEvent`: a name, a positional
argument list, and an optional profile restriction
(`restrict_to_browser_context`).  Browser contexts (profiles) are numbered. -/
structure Event where
  name : String
  args : List ExtensionActivity
  restrict_to_browser_context : Option Nat
deriving DecidableEq, Repr

/-- The observable member state of `ActivityLogAPI`: the owning context, the
`initialized_` flag, and whether its observer registration is currently
present on the Event Bus (event router) and on the Action Store (activity
log). -/
structure ActivityLogAPIState where
  browser_context : Nat
  initialized : Bool
  busRegistered : Bool
  storeRegistered : Bool
deriving DecidableEq, Repr

namespace ActivityLogAPI

/-- `ActivityLogAPI::ActivityLogAPI` (activity_log_private_api.cc:45-58):
`initialized_` starts false; if the extension system has no event router
(test host) the constructor returns at once; otherwise it registers one
observer on the event router and one on the activity log and sets
`initialized_` to true. -/
def construct (browser_context : Nat) (hasEventRouter : Bool) : ActivityLogAPIState :=
  if hasEventRouter then
    { browser_context := browser_context
      initialized := true
      busRegistered := true
      storeRegistered := true }
  else
    { browser_context := browser_context
      initialized := false
      busRegistered := false
      storeRegistered := false }

/-- `ActivityLogAPI::Shutdown` (activity_log_private_api.cc:63-71): when not
`initialized_` it returns untouched; otherwise it unregisters the event-router
observer and removes the activity-log observer.  It does not reset
`initialized_`. -/
def shutdown (s : ActivityLogAPIState) : ActivityLogAPIState :=
  if !s.initialized then s
  else { s with busRegistered := false, storeRegistered := false }

/-- `ActivityLogAPI::OnExtensionActivity` (activity_log_private_api.cc:87-98):
build a one-element argument list holding the ExtensionActivity conversion of
the Action, wrap it in an event named `kEventName` restricted to the owning
browser context, and broadcast it.  The method reads no state beyond
`browser_context_` and performs no guard. -/
def onExtensionActivity (browser_context : Nat) (activity : Action) : List Event :=
  [{ name := kEventName
     args := [activity.convertToExtensionActivity]
     restrict_to_browser_context := some browser_context }]

end ActivityLogAPI

/-- Environment step: the Action Store delivers a new Action to its observers.
It invokes `OnExtensionActivity` on the component exactly when the component's
observer registration is present, and the broadcasts of that call are emitted. -/
def storeDeliver (s : ActivityLogAPIState) (a : Action) : List Event :=
  if s.storeRegistered then ActivityLogAPI.onExtensionActivity s.browser_context a
  else []

/-- Direct invocation of the observer-bridge method on a component in state
`s`: the method body (activity_log_private_api.cc:87-98) uses only the
component's `browser_context_` member and checks nothing else. -/
def invokeBridge (s : ActivityLogAPIState) (a : Action) : List Event :=
  ActivityLogAPI.onExtensionActivity s.browser_context a

/-- An operation performed on a live component: the host calls `Shutdown`, or
the Action Store delivers an Action. -/
inductive Op where
  | shutdown
  | deliver (a : Action)
deriving DecidableEq, Repr

/-- One operation: the successor state and the events broadcast by it. -/
def step (s : ActivityLogAPIState) : Op → ActivityLogAPIState × List Event
  | Op.shutdown => (ActivityLogAPI.shutdown s, [])
  | Op.deliver a => (s, storeDeliver s a)

/-- Run a sequence of operations, collecting every broadcast event in order. -/
def run (s : ActivityLogAPIState) : List Op → ActivityLogAPIState × List Event
  | [] => (s, [])
  | op :: ops =>
      let r := step s op
      let rest := run r.1 ops
      (rest.1, r.2 ++ rest.2)

/-- A component state is reachable when some construction followed by some
operation sequence produces it. -/
def Reachable (s : ActivityLogAPIState) : Prop :=
  ∃ browser_context hasEventRouter ops,
    (run (ActivityLogAPI.construct browser_context hasEventRouter) ops).1 = s

/-- A sample Action for concrete witnesses. -/
def sampleAction : Action :=
  { action_id := 42
    action_type := ActionType.ACTION_API_CALL
    extension_id := "abcdefghijklmnop"
    api_name := "tabs.create"
    page_url := "http://www.example.com/"
    arg_url := ""
    time := 1000
    args := ["[]"] }

/-- A sample Filter for concrete witnesses (spec section 8, scenario 1). -/
def filterSample : Filter :=
  { activity_type := ACTIVITY_TYPE_API_CALL
    extension_id := some "abc"
    api_call := none
    page_url := none
    arg_url := none
    days_ago := none }

/-! ## Helper lemmas -/

/-- A fold that appends the image of each element equals the accumulator
followed by the mapped list. -/
lemma foldl_push_map {α β : Type} (f : α → β) :
    ∀ (l : List α) (acc : List β),
      l.foldl (fun r x => r ++ [f x]) acc = acc ++ l.map f := by
  intro l
  induction l with
  | nil => intro acc; simp
  | cons a l ih => intro acc; simp [ih]

/-- The identifier-parsing fold equals the accumulator followed by the
`filterMap` of `stringToInt64`. -/
lemma foldl_pushParsed :
    ∀ (l : List String) (acc : List Int),
      l.foldl ActivityLogPrivateDeleteActivitiesFunction.pushParsed acc =
        acc ++ l.filterMap stringToInt64 := by
  intro l
  induction l with
  | nil => intro acc; simp
  | cons a l ih =>
      intro acc
      cases h : stringToInt64 a <;>
        simp [ActivityLogPrivateDeleteActivitiesFunction.pushParsed, h, ih]

/-- Multiplicity in a `filterMap`: each occurrence of `v` in the output comes
from exactly one input element mapping to `some v`. -/
lemma count_filterMap_eq_countP (f : String → Option Int) (v : Int) :
    ∀ l : List String,
      (l.filterMap f).count v = l.countP fun s => f s == some v := by
  intro l
  induction l with
  | nil => rfl
  | cons a l ih =>
      cases h : f a with
      | none => simp [h, ih, List.countP_cons]
      | some w =>
          simp only [List.filterMap_cons, h, List.count_cons, List.countP_cons, ih]
          by_cases hw : w = v
          · simp [hw]
          · simp [hw]

/-- The source switch agrees with the spec's translation table. -/
lemma filterKindOf_eq_specActionKind (v : Int) :
    filterKindOf v = specActionKind v := by
  simp [filterKindOf, specActionKind, specActionKindTable, tableKind]

/-- If no `Shutdown` occurs, the component state is unchanged by a run. -/
lemma run_no_shutdown (s : ActivityLogAPIState) :
    ∀ ops : List Op, Op.shutdown ∉ ops → (run s ops).1 = s := by
  intro ops
  induction ops with
  | nil => intro _; rfl
  | cons op ops ih =>
      intro h
      cases op with
      | shutdown => simp at h
      | deliver a =>
          have h' : Op.shutdown ∉ ops := fun hm => h (List.mem_cons_of_mem _ hm)
          simpa [run, step] using ih h'

/-- `Shutdown` leaves a state with no registrations unchanged. -/
lemma shutdown_fixed (s : ActivityLogAPIState)
    (hb : s.busRegistered = false) (hs : s.storeRegistered = false) :
    ActivityLogAPI.shutdown s = s := by
  obtain ⟨bc, i, b, st⟩ := s
  subst hb
  subst hs
  cases i <;> simp [ActivityLogAPI.shutdown]

/-- A state with no registrations is a fixed point of every run, and such a
run broadcasts nothing. -/
lemma run_inert (s : ActivityLogAPIState)
    (hb : s.busRegistered = false) (hs : s.storeRegistered = false) :
    ∀ ops : List Op, run s ops = (s, []) := by
  intro ops
  induction ops with
  | nil => rfl
  | cons op ops ih =>
      cases op with
      | shutdown => simp [run, step, shutdown_fixed s hb hs, ih]
      | deliver a => simp [run, step, storeDeliver, hs, ih]

/-! ## Claim theorems -/

/-- C1: the single Store query issued by getExtensionActivities is the
translation of the filter: the activity type is mapped through the spec's
table with any value outside the enum, and the Any value, mapped to Any;
absent optional string fields become the empty string and present ones pass
through; absent days_ago becomes -1 and a present one passes through. -/
theorem getExtensionActivities_translates_filter (f : Filter) (v : Int)
    (hv : v ≠ ACTIVITY_TYPE_API_CALL ∧ v ≠ ACTIVITY_TYPE_API_EVENT ∧
      v ≠ ACTIVITY_TYPE_CONTENT_SCRIPT ∧ v ≠ ACTIVITY_TYPE_DOM_ACCESS ∧
      v ≠ ACTIVITY_TYPE_DOM_EVENT ∧ v ≠ ACTIVITY_TYPE_WEB_REQUEST) :
    ActivityLogPrivateGetExtensionActivitiesFunction.RunImpl f =
      [StoreCall.getFilteredActions
        { extension_id := f.extension_id.getD ""
          action_type := specActionKind f.activity_type
          api_call := f.api_call.getD ""
          page_url := f.page_url.getD ""
          arg_url := f.arg_url.getD ""
          days_ago := f.days_ago.getD (-1) }] ∧
    specActionKind v = ActionType.ACTION_ANY ∧
    specActionKind ACTIVITY_TYPE_ANY = ActionType.ACTION_ANY := by
  obtain ⟨h1, h2, h3, h4, h5, h6⟩ := hv
  refine ⟨?_, ?_, by decide⟩
  · obtain ⟨aty, ei, ac, pu, au, da⟩ := f
    cases ei <;> cases ac <;> cases pu <;> cases au <;> cases da <;>
      simp [ActivityLogPrivateGetExtensionActivitiesFunction.RunImpl,
        getExtensionActivitiesQuery, filterKindOf_eq_specActionKind]
  · simp [specActionKind, specActionKindTable, tableKind, h1, h2, h3, h4, h5, h6]

/-- Witness for C1 at the filter of spec scenario 1 and the out-of-enum
value 99. -/
theorem getExtensionActivities_translates_filter_witness :
    ((99 : Int) ≠ ACTIVITY_TYPE_API_CALL ∧ (99 : Int) ≠ ACTIVITY_TYPE_API_EVENT ∧
      (99 : Int) ≠ ACTIVITY_TYPE_CONTENT_SCRIPT ∧ (99 : Int) ≠ ACTIVITY_TYPE_DOM_ACCESS ∧
      (99 : Int) ≠ ACTIVITY_TYPE_DOM_EVENT ∧ (99 : Int) ≠ ACTIVITY_TYPE_WEB_REQUEST) ∧
    (ActivityLogPrivateGetExtensionActivitiesFunction.RunImpl filterSample =
      [StoreCall.getFilteredActions
        { extension_id := filterSample.extension_id.getD ""
          action_type := specActionKind filterSample.activity_type
          api_call := filterSample.api_call.getD ""
          page_url := filterSample.page_url.getD ""
          arg_url := filterSample.arg_url.getD ""
          days_ago := filterSample.days_ago.getD (-1) }] ∧
      specActionKind 99 = ActionType.ACTION_ANY ∧
      specActionKind ACTIVITY_TYPE_ANY = ActionType.ACTION_ANY) :=
  ⟨by decide, getExtensionActivities_translates_filter filterSample 99 (by decide)⟩

/-- C9: getExtensionActivities performs no range validation of days_ago: any
supplied integer is forwarded verbatim, and a filter that supplies
days_ago = -1 yields exactly the same Store query as one with days_ago
absent. -/
theorem getExtensionActivities_days_ago_unvalidated (f : Filter) (d : Int) :
    (getExtensionActivitiesQuery { f with days_ago := some d }).days_ago = d ∧
    ActivityLogPrivateGetExtensionActivitiesFunction.RunImpl { f with days_ago := some (-1) } =
      ActivityLogPrivateGetExtensionActivitiesFunction.RunImpl { f with days_ago := none } :=
  ⟨rfl, rfl⟩

/-- C4: when the Store query completes, the response carries one
ExtensionActivity per returned Action, each the conversion of its Action, in
the order the Store returned them. -/
theorem onLookupCompleted_converts_in_order (activities : List Action) :
    ActivityLogPrivateGetExtensionActivitiesFunction.OnLookupCompleted activities =
      activities.map Action.convertToExtensionActivity ∧
    (ActivityLogPrivateGetExtensionActivitiesFunction.OnLookupCompleted activities).length =
      activities.length := by
  have he : ActivityLogPrivateGetExtensionActivitiesFunction.OnLookupCompleted activities =
      activities.map Action.convertToExtensionActivity := by
    unfold ActivityLogPrivateGetExtensionActivitiesFunction.OnLookupCompleted
    simpa using foldl_push_map Action.convertToExtensionActivity activities []
  exact ⟨he, by rw [he]; simp⟩

/-- C3: the list forwarded to RemoveActions equals the input list with each
entry parsed as a base-10 signed 64-bit integer and unparseable entries
removed, in original order. -/
theorem deleteActivities_parses_and_filters (activity_ids : List String) :
    ActivityLogPrivateDeleteActivitiesFunction.RunImpl activity_ids =
      [StoreCall.removeActions (activity_ids.filterMap stringToInt64)] := by
  unfold ActivityLogPrivateDeleteActivitiesFunction.RunImpl
    ActivityLogPrivateDeleteActivitiesFunction.actionIds
  rw [foldl_pushParsed]
  simp

/-- C8: deleteActivities with an empty identifier list still issues exactly
one RemoveActions call, carrying the empty list. -/
theorem deleteActivities_empty_still_calls_store :
    ActivityLogPrivateDeleteActivitiesFunction.RunImpl [] =
      [StoreCall.removeActions []] := rfl

/-- C10: deleteActivities performs no deduplication (the forwarded list keeps
the multiplicity of every parseable identifier) and negative decimal strings
such as "-5" parse and are forwarded. -/
theorem deleteActivities_keeps_duplicates (activity_ids : List String) (v : Int) :
    (ActivityLogPrivateDeleteActivitiesFunction.actionIds activity_ids).count v =
      activity_ids.countP (fun s => stringToInt64 s == some v) ∧
    stringToInt64 "-5" = some (-5) ∧
    ActivityLogPrivateDeleteActivitiesFunction.RunImpl ["7", "7", "-5"] =
      [StoreCall.removeActions [7, 7, -5]] := by
  refine ⟨?_, by decide, by decide⟩
  unfold ActivityLogPrivateDeleteActivitiesFunction.actionIds
  rw [foldl_pushParsed]
  simpa using count_filterMap_eq_countP stringToInt64 v activity_ids

/-- C7: deleteUrls forwards exactly one URL object per input string, in the
same order, each the GURL parse of its string; empty or malformed strings
yield the structurally-empty URL and nothing is dropped. -/
theorem deleteUrls_forwards_every_url (urls : List String) (s : String)
    (h : isWellFormedUrl s = false) :
    ActivityLogPrivateDeleteUrlsFunction.RunImpl urls =
      [StoreCall.removeURLs (urls.map GURL.ofString)] ∧
    (ActivityLogPrivateDeleteUrlsFunction.gurlsOf urls).length = urls.length ∧
    GURL.ofString s = GURL.empty ∧
    GURL.ofString "" = GURL.empty := by
  have hg : ActivityLogPrivateDeleteUrlsFunction.gurlsOf urls =
      urls.map GURL.ofString := by
    unfold ActivityLogPrivateDeleteUrlsFunction.gurlsOf
    simpa using foldl_push_map GURL.ofString urls []
  refine ⟨?_, ?_, ?_, by decide⟩
  · unfold ActivityLogPrivateDeleteUrlsFunction.RunImpl
    rw [hg]
  · rw [hg]; simp
  · simp [GURL.ofString, h]

/-- Witness for C7 at the input of spec scenario 4, with "garbage" as the
malformed string. -/
theorem deleteUrls_forwards_every_url_witness :
    isWellFormedUrl "garbage" = false ∧
    (ActivityLogPrivateDeleteUrlsFunction.RunImpl ["http://a.example/", "", "garbage"] =
        [StoreCall.removeURLs
          ((["http://a.example/", "", "garbage"] : List String).map GURL.ofString)] ∧
      (ActivityLogPrivateDeleteUrlsFunction.gurlsOf
          ["http://a.example/", "", "garbage"]).length =
        (["http://a.example/", "", "garbage"] : List String).length ∧
      GURL.ofString "garbage" = GURL.empty ∧
      GURL.ofString "" = GURL.empty) :=
  ⟨by decide,
    deleteUrls_forwards_every_url ["http://a.example/", "", "garbage"] "garbage" (by decide)⟩

/-- C2: while the component is Active (constructed with an event router and
not yet shut down), every Action the Store delivers produces exactly one
broadcast event named "onExtensionActivity" whose sole positional argument is
the ExtensionActivity projection of the Action, restricted to the owning
browser context. -/
theorem observer_bridge_broadcasts_exactly_one (browser_context : Nat) (a : Action)
    (ops : List Op) (h : Op.shutdown ∉ ops) :
    storeDeliver (run (ActivityLogAPI.construct browser_context true) ops).1 a =
      [{ name := "onExtensionActivity"
         args := [a.convertToExtensionActivity]
         restrict_to_browser_context := some browser_context }] := by
  rw [run_no_shutdown _ ops h]
  simp [storeDeliver, ActivityLogAPI.construct, ActivityLogAPI.onExtensionActivity,
    kEventName]

/-- Witness for C2: a freshly constructed Active component receiving the
sample Action. -/
theorem observer_bridge_broadcasts_exactly_one_witness :
    Op.shutdown ∉ ([] : List Op) ∧
    storeDeliver (run (ActivityLogAPI.construct 0 true) []).1 sampleAction =
      [{ name := "onExtensionActivity"
         args := [sampleAction.convertToExtensionActivity]
         restrict_to_browser_context := some 0 }] :=
  ⟨by simp, observer_bridge_broadcasts_exactly_one 0 sampleAction [] (by simp)⟩

/-- C5 counterexample: the state reached by constructing an Active component
and running Shutdown is reachable, still has `initialized_ = true` (Shutdown
never resets it, activity_log_private_api.cc:63-71), yet holds no observer
registration on either collaborator — so "initialized implies exactly one
registration on each" fails on this reachable state. -/
theorem lifecycle_invariant_counterexample :
    Reachable (ActivityLogAPI.shutdown (ActivityLogAPI.construct 0 true)) ∧
    (ActivityLogAPI.shutdown (ActivityLogAPI.construct 0 true)).initialized = true ∧
    (ActivityLogAPI.shutdown (ActivityLogAPI.construct 0 true)).busRegistered = false ∧
    (ActivityLogAPI.shutdown (ActivityLogAPI.construct 0 true)).storeRegistered = false :=
  ⟨⟨0, true, [Op.shutdown], rfl⟩, by decide, by decide, by decide⟩

/-- C5 amended: in every reachable state in which Shutdown has not yet run,
`initialized_ = true` implies exactly one observer registration on each of the
Event Bus and the Action Store (both created together at construction); and a
component constructed without an event router broadcasts nothing under any
operation sequence and its Shutdown performs no teardown (returns the state
untouched). -/
theorem lifecycle_registration_invariant_amended (browser_context : Nat)
    (hasEventRouter : Bool) (ops ops2 : List Op) (h : Op.shutdown ∉ ops) :
    ((run (ActivityLogAPI.construct browser_context hasEventRouter) ops).1.initialized = true →
      (run (ActivityLogAPI.construct browser_context hasEventRouter) ops).1.busRegistered = true ∧
      (run (ActivityLogAPI.construct browser_context hasEventRouter) ops).1.storeRegistered = true) ∧
    (run (ActivityLogAPI.construct browser_context false) ops2).2 = [] ∧
    ActivityLogAPI.shutdown (ActivityLogAPI.construct browser_context false) =
      ActivityLogAPI.construct browser_context false := by
  refine ⟨?_, ?_, ?_⟩
  · rw [run_no_shutdown _ ops h]
    cases hasEventRouter with
    | false => intro hi; simp [ActivityLogAPI.construct] at hi
    | true => intro _; exact ⟨rfl, rfl⟩
  · rw [run_inert (ActivityLogAPI.construct browser_context false) rfl rfl ops2]
  · exact shutdown_fixed _ rfl rfl

/-- Witness for C5 amended: an Active component with no operations run, and an
Inert component subjected to a Shutdown and a delivery. -/
theorem lifecycle_registration_invariant_amended_witness :
    Op.shutdown ∉ ([] : List Op) ∧
    (((run (ActivityLogAPI.construct 0 true) []).1.initialized = true →
      (run (ActivityLogAPI.construct 0 true) []).1.busRegistered = true ∧
      (run (ActivityLogAPI.construct 0 true) []).1.storeRegistered = true) ∧
    (run (ActivityLogAPI.construct 0 false) [Op.shutdown, Op.deliver sampleAction]).2 = [] ∧
    ActivityLogAPI.shutdown (ActivityLogAPI.construct 0 false) =
      ActivityLogAPI.construct 0 false) :=
  ⟨by simp,
    lifecycle_registration_invariant_amended 0 true []
      [Op.shutdown, Op.deliver sampleAction] (by simp)⟩

/-- C6 counterexample: the observer-bridge method carries no state guard
(activity_log_private_api.cc:87-98): invoked directly on the component after
Shutdown has run on an Active component, it still broadcasts one event — it is
not a no-op. -/
theorem shutdown_bridge_not_noop_counterexample :
    invokeBridge (ActivityLogAPI.shutdown (ActivityLogAPI.construct 0 true)) sampleAction =
      [{ name := "onExtensionActivity"
         args := [sampleAction.convertToExtensionActivity]
         restrict_to_browser_context := some 0 }] ∧
    invokeBridge (ActivityLogAPI.shutdown (ActivityLogAPI.construct 0 true)) sampleAction ≠
      ([] : List Event) :=
  ⟨by decide, by decide⟩

/-- C6 amended: after Shutdown has run on an Active component, no further
broadcasts ever occur from it under any operation sequence (its observer
registrations are gone, so the Store delivers nothing to it) and its state no
longer changes; but the observer bridge, if invoked directly, is not a no-op:
it still broadcasts the converted Action. -/
theorem shutdown_quiescent_amended (browser_context : Nat) (a : Action)
    (ops : List Op) :
    (run (ActivityLogAPI.shutdown (ActivityLogAPI.construct browser_context true)) ops).2 = [] ∧
    (run (ActivityLogAPI.shutdown (ActivityLogAPI.construct browser_context true)) ops).1 =
      ActivityLogAPI.shutdown (ActivityLogAPI.construct browser_context true) ∧
    storeDeliver (ActivityLogAPI.shutdown (ActivityLogAPI.construct browser_context true)) a =
      [] ∧
    invokeBridge (ActivityLogAPI.shutdown (ActivityLogAPI.construct browser_context true)) a =
      [{ name := kEventName
         args := [a.convertToExtensionActivity]
         restrict_to_browser_context := some browser_context }] := by
  have hr := run_inert
    (ActivityLogAPI.shutdown (ActivityLogAPI.construct browser_context true)) rfl rfl ops
  refine ⟨by rw [hr], by rw [hr], ?_, rfl⟩
  simp [storeDeliver, ActivityLogAPI.shutdown, ActivityLogAPI.construct]

end extensions
